import Mathlib

/-!
# Disaster early-warning pipeline — shallow embedding

A shallow embedding of the alerting core of the disaster early-warning
repository: the threshold classifier and deduplication gate
(`services/alertService.js`, class `AlertService`), the data collector
(`services/dataCollector.js`, class `DataCollectorService`), the WebSocket
fan-out (`services/websocketService.js`, class `WebSocketService`) and the
alert status update route (`routes/alerts.js`, `PATCH /api/alerts/:id`).

Conventions of the embedding:
* JavaScript numbers are modelled as `ℚ`; timestamps (`Date.now()` and
  Mongo `Date` values) as `ℤ` epoch milliseconds.
* JavaScript truthiness tests on numeric readings (`!magnitude`,
  `windSpeed && …`) are modelled as the value being present (`Option`)
  and nonzero.
* The Mongo `Alert` collection is modelled as a `List Alert`; `findOne`
  is `List.find?` and `save` appends to the list.
* String interpolation of numbers (`toFixed`) is abstracted by the
  canonical `ℚ` rendering `toString`; no property below depends on the
  rendered digits.
-/

/-- `severity` enum of the Mongoose `Alert` schema. -/
inductive Severity
  | low
  | medium
  | high
  | critical
deriving DecidableEq, Repr

/-- `type` enum of the Mongoose `Alert` schema. -/
inductive HazardType
  | earthquake
  | flood
  | cyclone
  | tsunami
  | wildfire
  | extreme_weather
  | heatwave
  | storm
deriving DecidableEq, Repr

/-- `status` enum of the Mongoose `Alert` schema. -/
inductive AlertStatus
  | active
  | monitoring
  | resolved
  | expired
deriving DecidableEq, Repr

/-- Location of a sensor reading (`SensorData.location`). -/
structure Location where
  name : String
  latitude : ℚ
  longitude : ℚ
deriving DecidableEq, Repr

/-- Location of an alert (`Alert.location`, includes the affected radius). -/
structure AlertLocation where
  name : String
  latitude : ℚ
  longitude : ℚ
  radius : ℚ
deriving DecidableEq, Repr

/-- The measurement vocabulary of `SensorData.readings` / `Alert.data`.
A key absent from the JavaScript object is `none`. -/
structure Readings where
  magnitude : Option ℚ := none
  depth : Option ℚ := none
  temperature : Option ℚ := none
  humidity : Option ℚ := none
  pressure : Option ℚ := none
  windSpeed : Option ℚ := none
  windDirection : Option ℚ := none
  rainfall : Option ℚ := none
  visibility : Option ℚ := none
  waterLevel : Option ℚ := none
deriving DecidableEq, Repr

/-- `type` field of `SensorData`; `other` covers the `default` switch arm of
`AlertService._evaluateDataPoint`. -/
inductive SensorType
  | earthquake
  | weather
  | flood
  | other
deriving DecidableEq, Repr

/-- A stored sensor reading (`SensorData` document, the fields the alert
evaluation reads). -/
structure SensorData where
  source : String
  type : SensorType
  location : Location
  readings : Readings
  quality : String := "good"
deriving DecidableEq, Repr

/-- A stored alert (`Alert` document, the fields the core reads or writes).
`id` stands for the Mongo `_id`, assigned by the store. -/
structure Alert where
  id : String := ""
  title : String
  type : HazardType
  severity : Severity
  status : AlertStatus
  description : String
  location : AlertLocation
  data : Readings
  source : String
  recommendations : List String
  createdAt : ℤ
  expiresAt : ℤ
  resolvedAt : Option ℤ := none
deriving DecidableEq, Repr

/-! ## Threshold tables (`AlertService` constructor) -/

/-- One four-tier boundary table (`low`/`medium`/`high`/`critical`). -/
structure TierThresholds where
  low : ℚ
  medium : ℚ
  high : ℚ
  critical : ℚ
deriving DecidableEq, Repr

/-- The two temperature boundaries (`thresholds.temperature`). -/
structure TemperatureThresholds where
  heatwave : ℚ
  extreme : ℚ
deriving DecidableEq, Repr

/-- `this.thresholds` of `AlertService`. -/
structure Thresholds where
  earthquake : TierThresholds
  windSpeed : TierThresholds
  rainfall : TierThresholds
  temperature : TemperatureThresholds
  waterLevel : TierThresholds
deriving DecidableEq, Repr

/-- The configured threshold tables. -/
def thresholds : Thresholds where
  earthquake := ⟨3, 9/2, 6, 7⟩
  windSpeed := ⟨40, 70, 100, 150⟩
  rainfall := ⟨30, 60, 100, 150⟩
  temperature := ⟨42, 45⟩
  waterLevel := ⟨3, 5, 8, 12⟩

/-- The cascaded `if (v >= critical) … else if (v >= high) …` severity
selection, shared verbatim by the earthquake, wind and flood evaluators. -/
def tierSeverity (t : TierThresholds) (v : ℚ) : Severity :=
  if t.critical ≤ v then .critical
  else if t.high ≤ v then .high
  else if t.medium ≤ v then .medium
  else .low

/-! ## Recommendations (`AlertService._get*Recommendations`) -/

/-- `AlertService._getEarthquakeRecommendations` (the `magnitude` argument is
passed by the caller but unused by the body). -/
def getEarthquakeRecommendations (severity : Severity) (_magnitude : ℚ) : List String :=
  let base := [
    "Drop, Cover, and Hold On if shaking occurs",
    "Move away from windows and heavy objects",
    "Check for gas leaks after shaking stops"]
  if severity = .high ∨ severity = .critical then
    base ++ [
      "Be prepared for aftershocks",
      "Evacuate damaged buildings immediately",
      "Move to open areas away from structures",
      "Have emergency kit ready",
      "Follow official evacuation orders"]
  else base

/-- `AlertService._getStormRecommendations`. -/
def getStormRecommendations (severity : Severity) : List String :=
  let base := [
    "Secure loose outdoor objects",
    "Stay indoors until storm passes",
    "Keep emergency supplies ready"]
  if severity = .high ∨ severity = .critical then
    base ++ [
      "Move to reinforced shelter immediately",
      "Stay away from windows and exterior walls",
      "Follow evacuation orders if issued",
      "Charge all communication devices",
      "Fill bathtubs and containers with water"]
  else base

/-- `AlertService._getFloodRecommendations`. -/
def getFloodRecommendations (severity : Severity) : List String :=
  let base := [
    "Move to higher ground if water is rising",
    "Avoid walking or driving through floodwater",
    "Keep important documents in waterproof bags"]
  if severity = .high ∨ severity = .critical then
    base ++ [
      "Evacuate immediately if ordered",
      "Disconnect electrical appliances",
      "Do not attempt to cross flooded roads",
      "Signal for help if stranded",
      "Boil drinking water after flooding"]
  else base

/-- The literal recommendation list of the heatwave branch of
`AlertService._evaluateWeather`. -/
def heatwaveRecommendations : List String := [
  "Stay indoors during peak hours (11 AM - 4 PM)",
  "Drink plenty of water and fluids",
  "Avoid strenuous outdoor activities",
  "Check on elderly and vulnerable people",
  "Keep pets indoors with water"]

/-! ## Deduplication predicates (the `Alert.findOne` filters) -/

/-- The `Alert.findOne` filter of `_evaluateEarthquake`: active earthquake
alert whose coordinates lie within ±0.5° of the reading, created within the
last 60 minutes. -/
def quakeDedupMatch (lat lon : ℚ) (now : ℤ) (a : Alert) : Bool :=
  decide (a.type = .earthquake ∧ a.status = .active ∧
    lat - 1/2 ≤ a.location.latitude ∧ a.location.latitude ≤ lat + 1/2 ∧
    lon - 1/2 ≤ a.location.longitude ∧ a.location.longitude ≤ lon + 1/2 ∧
    now - 3600000 ≤ a.createdAt)

/-- The `Alert.findOne` filter of the wind branch of `_evaluateWeather`:
active alert of the same (storm/cyclone) type with the same location *name*,
created within the last 2 hours. -/
def stormDedupMatch (ty : HazardType) (name : String) (now : ℤ) (a : Alert) : Bool :=
  decide (a.type = ty ∧ a.status = .active ∧ a.location.name = name ∧
    now - 7200000 ≤ a.createdAt)

/-- The `Alert.findOne` filter of the heatwave branch of `_evaluateWeather`:
active heatwave alert with the same location name, created within 6 hours. -/
def heatwaveDedupMatch (name : String) (now : ℤ) (a : Alert) : Bool :=
  decide (a.type = .heatwave ∧ a.status = .active ∧ a.location.name = name ∧
    now - 21600000 ≤ a.createdAt)

/-- The `Alert.findOne` filter of `_evaluateFlood`: active flood alert with
the same location name, created within the last 3 hours. -/
def floodDedupMatch (name : String) (now : ℤ) (a : Alert) : Bool :=
  decide (a.type = .flood ∧ a.status = .active ∧ a.location.name = name ∧
    now - 10800000 ≤ a.createdAt)

/-! ## Alert construction (`new Alert({...})` in each evaluator)

`status` is not set by the evaluators, so the schema default `active`
applies; `createdAt` is the Mongoose timestamp at save time. -/

/-- The alert built and saved by `_evaluateEarthquake`. -/
def mkQuakeAlert (now : ℤ) (d : SensorData) (magnitude : ℚ) (severity : Severity) : Alert where
  title := "Earthquake M" ++ toString magnitude ++ " - " ++ d.location.name
  type := .earthquake
  severity := severity
  status := .active
  description := "A magnitude " ++ toString magnitude ++
    " earthquake detected near " ++ d.location.name ++ "."
  location := ⟨d.location.name, d.location.latitude, d.location.longitude, magnitude * 20⟩
  data := { magnitude := some magnitude, depth := d.readings.depth }
  source := d.source
  recommendations := getEarthquakeRecommendations severity magnitude
  createdAt := now
  expiresAt := now + 86400000

/-- The alert built and saved by the wind branch of `_evaluateWeather`. -/
def mkStormAlert (now : ℤ) (d : SensorData) (windSpeed : ℚ) (ty : HazardType)
    (severity : Severity) : Alert where
  title := (if ty = .cyclone then "Cyclone" else "Storm") ++ " Warning - " ++ d.location.name
  type := ty
  severity := severity
  status := .active
  description := "Wind speeds of " ++ toString windSpeed ++ " km/h detected at " ++
    d.location.name ++ ". " ++
    (match d.readings.rainfall with
     | some r => if r = 0 then "" else "Rainfall: " ++ toString r ++ " mm."
     | none => "")
  location := ⟨d.location.name, d.location.latitude, d.location.longitude, 100⟩
  data := { windSpeed := some windSpeed, rainfall := d.readings.rainfall,
            pressure := d.readings.pressure }
  source := d.source
  recommendations := getStormRecommendations severity
  createdAt := now
  expiresAt := now + 43200000

/-- The alert built and saved by the heatwave branch of `_evaluateWeather`. -/
def mkHeatwaveAlert (now : ℤ) (d : SensorData) (temperature : ℚ)
    (severity : Severity) : Alert where
  title := "Heatwave Alert - " ++ d.location.name
  type := .heatwave
  severity := severity
  status := .active
  description := "Temperature of " ++ toString temperature ++ " recorded at " ++
    d.location.name ++ ". Stay hydrated and avoid prolonged sun exposure."
  location := ⟨d.location.name, d.location.latitude, d.location.longitude, 50⟩
  data := { temperature := some temperature, humidity := d.readings.humidity }
  source := d.source
  recommendations := heatwaveRecommendations
  createdAt := now
  expiresAt := now + 86400000

/-- The alert built and saved by `_evaluateFlood`. -/
def mkFloodAlert (now : ℤ) (d : SensorData) (waterLevel : ℚ)
    (severity : Severity) : Alert where
  title := "Flood Warning - " ++ d.location.name
  type := .flood
  severity := severity
  status := .active
  description := "Water level at " ++ toString waterLevel ++ "m with " ++
    toString (d.readings.rainfall.getD 0) ++ "mm rainfall near " ++ d.location.name ++ "."
  location := ⟨d.location.name, d.location.latitude, d.location.longitude, 75⟩
  data := { waterLevel := some waterLevel, rainfall := d.readings.rainfall }
  source := d.source
  recommendations := getFloodRecommendations severity
  createdAt := now
  expiresAt := now + 172800000

/-! ## The evaluators (`AlertService._evaluate*`)

Each evaluator takes the alert store (the `Alert` collection) and the
current time, and returns the alert the JavaScript function returns
together with the store after any `save()` calls. -/

/-- `AlertService._evaluateEarthquake`. The guard
`if (!magnitude || magnitude < low) return null` drops a missing or zero
(falsy) magnitude and anything below the lowest boundary. -/
def evaluateEarthquake (store : List Alert) (now : ℤ) (d : SensorData) :
    Option Alert × List Alert :=
  match d.readings.magnitude with
  | none => (none, store)
  | some magnitude =>
    if magnitude = 0 ∨ magnitude < thresholds.earthquake.low then (none, store)
    else
      let severity := tierSeverity thresholds.earthquake magnitude
      match store.find? (quakeDedupMatch d.location.latitude d.location.longitude now) with
      | some _ => (none, store)
      | none =>
        let alert := mkQuakeAlert now d magnitude severity
        (some alert, store ++ [alert])

/-- The wind/storm branch of `AlertService._evaluateWeather`
(`if (windSpeed && windSpeed >= this.thresholds.windSpeed.low) { … }`). -/
def windStep (store : List Alert) (now : ℤ) (d : SensorData) :
    Option Alert × List Alert :=
  match d.readings.windSpeed with
  | none => (none, store)
  | some w =>
    if w = 0 ∨ w < thresholds.windSpeed.low then (none, store)
    else
      let severity := tierSeverity thresholds.windSpeed w
      let ty := if thresholds.windSpeed.high ≤ w then HazardType.cyclone else .storm
      match store.find? (stormDedupMatch ty d.location.name now) with
      | some _ => (none, store)
      | none =>
        let alert := mkStormAlert now d w ty severity
        (some alert, store ++ [alert])

/-- The heatwave branch of `AlertService._evaluateWeather`
(`if (temperature && temperature >= this.thresholds.temperature.heatwave)`);
`prev` is the value the local `alert` variable has after the wind branch. -/
def heatStep (prev : Option Alert) (store : List Alert) (now : ℤ) (d : SensorData) :
    Option Alert × List Alert :=
  match d.readings.temperature with
  | none => (prev, store)
  | some temperature =>
    if temperature = 0 ∨ temperature < thresholds.temperature.heatwave then (prev, store)
    else
      let severity := if thresholds.temperature.extreme ≤ temperature
        then Severity.critical else .high
      match store.find? (heatwaveDedupMatch d.location.name now) with
      | some _ => (prev, store)
      | none =>
        let alert := mkHeatwaveAlert now d temperature severity
        (some alert, store ++ [alert])

/-- `AlertService._evaluateWeather`: the wind branch followed by the
heatwave branch; the function returns the last alert assigned (the
heatwave alert shadows a wind alert in the returned value), but both
branches `save()` their alert to the store. -/
def evaluateWeather (store : List Alert) (now : ℤ) (d : SensorData) :
    Option Alert × List Alert :=
  let ws := windStep store now d
  heatStep ws.1 ws.2 now d

/-- `AlertService._evaluateFlood`. -/
def evaluateFlood (store : List Alert) (now : ℤ) (d : SensorData) :
    Option Alert × List Alert :=
  match d.readings.waterLevel with
  | none => (none, store)
  | some waterLevel =>
    if waterLevel = 0 ∨ waterLevel < thresholds.waterLevel.low then (none, store)
    else
      let severity := tierSeverity thresholds.waterLevel waterLevel
      match store.find? (floodDedupMatch d.location.name now) with
      | some _ => (none, store)
      | none =>
        let alert := mkFloodAlert now d waterLevel severity
        (some alert, store ++ [alert])

/-- `AlertService._evaluateDataPoint`: dispatch on the sensor type. -/
def evaluateDataPoint (store : List Alert) (now : ℤ) (d : SensorData) :
    Option Alert × List Alert :=
  match d.type with
  | .earthquake => evaluateEarthquake store now d
  | .weather => evaluateWeather store now d
  | .flood => evaluateFlood store now d
  | .other => (none, store)

/-- The loop of `AlertService.evaluateAlerts` over the recent sensor data:
returns the list of newly generated alerts and the final store. -/
def evaluateAlerts (store : List Alert) (now : ℤ) :
    List SensorData → List Alert × List Alert
  | [] => ([], store)
  | d :: rest =>
    let r := evaluateDataPoint store now d
    let rec' := evaluateAlerts r.2 now rest
    (match r.1 with
     | some a => a :: rec'.1
     | none => rec'.1, rec'.2)

/-! ## Broadcast (`AlertService._broadcastAlert`, `WebSocketService`)

`AlertService._broadcastAlert` calls `this.io.emit('new-alert', {...})`,
a socket.io broadcast to *every* connected socket. `WebSocketService`
keeps the connected clients in a `Map` keyed by socket id, with the
subscription type list set by the `subscribe` handler (which also joins
the socket to one room per type); `broadcastAlert` emits to all sockets,
`sendTypeAlert` emits to the room of one type. -/

/-- One entry of `WebSocketService.connectedClients` together with the
rooms the socket joined via `subscribe` (the disaster-type strings). -/
structure WsClient where
  id : String
  subscriptions : List String
deriving DecidableEq, Repr

/-- The Mongoose enum string of a hazard type (the room names used by
`socket.join(types)` are these strings, sent by the client). -/
def hazardName : HazardType → String
  | .earthquake => "earthquake"
  | .flood => "flood"
  | .cyclone => "cyclone"
  | .tsunami => "tsunami"
  | .wildfire => "wildfire"
  | .extreme_weather => "extreme_weather"
  | .heatwave => "heatwave"
  | .storm => "storm"

/-- Recipients of `io.emit('new-alert', …)` — used by both
`AlertService._broadcastAlert` and `WebSocketService.broadcastAlert`:
every connected socket, with no filtering. -/
def broadcastAlertRecipients (clients : List WsClient) (_alert : Alert) : List String :=
  clients.map WsClient.id

/-- Recipients of `WebSocketService.sendTypeAlert`
(`io.to(type).emit('new-alert', alert)`): the sockets that joined the
room of that type. -/
def sendTypeAlertRecipients (clients : List WsClient) (ty : String) : List String :=
  (clients.filter fun c => c.subscriptions.contains ty).map WsClient.id

/-! ## The pushed payload (`AlertService._broadcastAlert`) -/

/-- A value of the object literal emitted on the `new-alert` channel. -/
inductive PayloadValue
  | str (s : String)
  | hazard (t : HazardType)
  | sev (s : Severity)
  | loc (l : AlertLocation)
  | time (t : ℤ)
deriving DecidableEq, Repr

/-- The object literal `AlertService._broadcastAlert` emits: key/value
pairs in source order. -/
def newAlertPayload (a : Alert) : List (String × PayloadValue) :=
  [("id", .str a.id),
   ("title", .str a.title),
   ("type", .hazard a.type),
   ("severity", .sev a.severity),
   ("description", .str a.description),
   ("location", .loc a.location),
   ("createdAt", .time a.createdAt)]

/-- The payloads pushed by one run of `AlertService.evaluateAlerts` (the
`for (const alert of newAlerts) this._broadcastAlert(alert)` loop). -/
def evaluateAlertsBroadcasts (store : List Alert) (now : ℤ)
    (recentData : List SensorData) : List (List (String × PayloadValue)) :=
  (evaluateAlerts store now recentData).1.map newAlertPayload

/-! ## Status update (`routes/alerts.js`, `PATCH /api/alerts/:id`) -/

/-- The request body fields the PATCH handler copies into `$set`
(`allowedUpdates = ['status', 'severity', 'description', 'recommendations']`);
an absent field is `none`. -/
structure PatchBody where
  status : Option AlertStatus := none
  severity : Option Severity := none
  description : Option String := none
  recommendations : Option (List String) := none
deriving DecidableEq, Repr

/-- The effect of `Alert.findByIdAndUpdate(id, { $set: updates })` on the
matched alert. `runValidators` only enforces the schema enums, which the
types of `PatchBody` already guarantee; no transition restriction exists.
When the body sets `status` to `resolved` the handler also sets
`resolvedAt` to the current time. -/
def applyPatch (a : Alert) (b : PatchBody) (now : ℤ) : Alert :=
  { a with
    status := b.status.getD a.status
    severity := b.severity.getD a.severity
    description := b.description.getD a.description
    recommendations := b.recommendations.getD a.recommendations
    resolvedAt := if b.status = some .resolved then some now else a.resolvedAt }

/-! ## Data collection (`DataCollectorService`)

Network effects are modelled by parameters: `fetch` is the per-location
result of the OpenWeatherMap request (`none` = the request threw, caught
by the per-location `try/catch`); the USGS result is an optional feature
list (`none` = the request threw, caught by the surrounding `try/catch`);
`rand` is the stream of `Math.random()` draws consumed left to right. -/

/-- One entry of `DataCollectorService.monitoredLocations`. -/
structure MonitoredLocation where
  name : String
  lat : ℚ
  lon : ℚ
deriving DecidableEq, Repr

/-- `this.monitoredLocations` of `DataCollectorService`. -/
def monitoredLocations : List MonitoredLocation := [
  ⟨"Mumbai, India", 19076/1000, 728777/10000⟩,
  ⟨"Delhi, India", 286139/10000, 772090/10000⟩,
  ⟨"Chennai, India", 130827/10000, 802707/10000⟩,
  ⟨"Kolkata, India", 225726/10000, 883639/10000⟩,
  ⟨"Tokyo, Japan", 356762/10000, 1396503/10000⟩,
  ⟨"San Francisco, USA", 377749/10000, -1224194/10000⟩,
  ⟨"Jakarta, Indonesia", -62088/10000, 1068456/10000⟩,
  ⟨"Manila, Philippines", 145995/10000, 1209842/10000⟩,
  ⟨"Dhaka, Bangladesh", 238103/10000, 904125/10000⟩,
  ⟨"Kathmandu, Nepal", 277172/10000, 853240/10000⟩]

/-- `if (!this.openWeatherKey || this.openWeatherKey === 'your_openweather_api_key_here')` —
the negation of the guard that selects the simulated path. -/
def keyConfigured (key : String) : Bool :=
  !(key == "" || key == "your_openweather_api_key_here")

/-- The fields `collectWeatherData` reads from an OpenWeatherMap response. -/
structure WeatherApiResponse where
  temp : ℚ
  humidity : ℚ
  pressure : ℚ
  windSpeedMs : ℚ
  windDeg : ℚ
  rain1h : Option ℚ
  visibilityM : ℚ
deriving DecidableEq, Repr

/-- The `SensorData` built from one successful OpenWeatherMap response
(wind speed converted m/s → km/h, visibility m → km, missing rain → 0). -/
def weatherReadingOfResponse (loc : MonitoredLocation) (r : WeatherApiResponse) :
    SensorData where
  source := "openweather"
  type := .weather
  location := ⟨loc.name, loc.lat, loc.lon⟩
  readings :=
    { temperature := some r.temp
      humidity := some r.humidity
      pressure := some r.pressure
      windSpeed := some (r.windSpeedMs * 36/10)
      windDirection := some r.windDeg
      rainfall := some (r.rain1h.getD 0)
      visibility := some (r.visibilityM / 1000) }
  quality := "good"

/-- One simulated weather reading of
`DataCollectorService._generateSimulatedWeatherData`; `i` is the index of
the location in the loop, and the 8 `Math.random()` draws it consumes are
`rand (8*i) … rand (8*i+7)`. -/
def simulatedWeatherReading (rand : ℕ → ℚ) (i : ℕ) (loc : MonitoredLocation) :
    SensorData :=
  let r := fun (j : ℕ) => rand (8 * i + j)
  let baseTemp := 25 + (r 0 - 1/2) * 20
  let isExtreme := decide (85/100 < r 1)
  { source := "openweather"
    type := .weather
    location := ⟨loc.name, loc.lat, loc.lon⟩
    readings :=
      { temperature := some (if isExtreme then baseTemp + 15 else baseTemp)
        humidity := some ((⌊40 + r 2 * 55⌋ : ℤ) : ℚ)
        pressure := some ((⌊990 + r 3 * 40⌋ : ℤ) : ℚ)
        windSpeed := some (if isExtreme then 80 + r 4 * 100 else 5 + r 4 * 30)
        windDirection := some ((⌊r 5 * 360⌋ : ℤ) : ℚ)
        rainfall := some (if isExtreme then 50 + r 6 * 150 else r 6 * 20)
        visibility := some (if isExtreme then 1/2 + r 7 * 2 else 5 + r 7 * 10) }
    quality := "moderate" }

/-- `DataCollectorService._generateSimulatedWeatherData`: one simulated
reading per monitored location. -/
def generateSimulatedWeatherData (rand : ℕ → ℚ) : List SensorData :=
  monitoredLocations.mapIdx (simulatedWeatherReading rand)

/-- `DataCollectorService.collectWeatherData`: without a configured API
key the whole batch is simulated; with a key, each location is fetched
and a failed request is caught, logged and *skipped* (no fallback entry
for that location). -/
def collectWeatherData (key : String)
    (fetch : MonitoredLocation → Option WeatherApiResponse)
    (rand : ℕ → ℚ) : List SensorData :=
  if !keyConfigured key then generateSimulatedWeatherData rand
  else monitoredLocations.filterMap fun loc =>
    (fetch loc).map (weatherReadingOfResponse loc)

/-- The fields `collectEarthquakeData` reads from one USGS GeoJSON feature. -/
structure QuakeFeature where
  place : Option String
  longitude : ℚ
  latitude : ℚ
  depth : ℚ
  mag : ℚ
  reviewed : Bool
deriving DecidableEq, Repr

/-- The `SensorData` built from one USGS feature. -/
def quakeReadingOfFeature (f : QuakeFeature) : SensorData where
  source := "usgs"
  type := .earthquake
  location :=
    ⟨match f.place with
      | some s => if s = "" then "Unknown" else s
      | none => "Unknown",
     f.latitude, f.longitude⟩
  readings := { magnitude := some f.mag, depth := some f.depth }
  quality := if f.reviewed then "good" else "moderate"

/-- The seismic zones of `_generateSimulatedEarthquakeData`. -/
def quakeZones : List MonitoredLocation := [
  ⟨"Pacific Ring of Fire", 356762/10000, 1396503/10000⟩,
  ⟨"Himalayan Belt", 277172/10000, 853240/10000⟩,
  ⟨"San Andreas Fault", 377749/10000, -1224194/10000⟩,
  ⟨"Indonesian Arc", -62088/10000, 1068456/10000⟩,
  ⟨"Philippine Fault", 145995/10000, 1209842/10000⟩]

/-- `DataCollectorService._generateSimulatedEarthquakeData`:
`numEvents = Math.floor(2 + Math.random() * 5)` events, each drawing a
zone, a latitude and longitude jitter, a magnitude and a depth. -/
def generateSimulatedEarthquakeData (rand : ℕ → ℚ) : List SensorData :=
  let numEvents := (⌊2 + rand 0 * 5⌋ : ℤ).toNat
  (List.range numEvents).map fun i =>
    let r := fun (j : ℕ) => rand (1 + 5 * i + j)
    let zone := quakeZones.getD (⌊r 0 * (quakeZones.length : ℚ)⌋ : ℤ).toNat ⟨"", 0, 0⟩
    { source := "usgs"
      type := .earthquake
      location := ⟨"Near " ++ zone.name,
        zone.lat + (r 1 - 1/2) * 5, zone.lon + (r 2 - 1/2) * 5⟩
      readings := { magnitude := some (5/2 + r 3 * 5), depth := some (5 + r 4 * 300) }
      quality := "moderate" }

/-- `DataCollectorService.collectEarthquakeData`: a failed USGS request is
caught and answered with the simulated generator. -/
def collectEarthquakeData (response : Option (List QuakeFeature))
    (rand : ℕ → ℚ) : List SensorData :=
  match response with
  | some features => features.map quakeReadingOfFeature
  | none => generateSimulatedEarthquakeData rand

/-! ## Sample readings used by concrete witnesses and counterexamples -/

/-- A hydrological reading for the Ganges Basin with `waterLevel` 8.5 m. -/
def gangesFloodReading : SensorData where
  source := "sensor"
  type := .flood
  location := ⟨"Ganges Basin, India", 253/10, 829/10⟩
  readings := { waterLevel := some (17/2), rainfall := some 110 }
  quality := "moderate"

/-- A weather reading for the Bay of Bengal with `windSpeed` 140 km/h. -/
def bayOfBengalWindReading : SensorData where
  source := "openweather"
  type := .weather
  location := ⟨"Bay of Bengal", 31/2, 85⟩
  readings := { windSpeed := some 140, pressure := some 960, rainfall := some 120 }
  quality := "good"

/-! # Theorems -/

/-- `evaluateFlood`'s low guard rejects nothing at or above the high tier. -/
theorem floodGuardFalse {w : ℚ} (h8 : 8 ≤ w) :
    ¬(w = 0 ∨ w < thresholds.waterLevel.low) := by
  have hlow : thresholds.waterLevel.low = 3 := rfl
  push_neg
  rw [hlow]
  constructor
  · intro h0
    rw [h0] at h8
    norm_num at h8
  · linarith

/-- C1: Deduplication is idempotent within the flood lookback window: two
flood readings with the same location name, both with `waterLevel ≥ 8`,
processed 10 minutes apart against a store holding no active flood alert
for that location, produce exactly one active flood alert — the second
candidate is suppressed by the alert created by the first (its creation
time lies within the 180-minute flood lookback window). -/
theorem flood_dedup_idempotent_within_window
    (store : List Alert) (t : ℤ) (d₁ d₂ : SensorData) (w₁ w₂ : ℚ)
    (ht₁ : d₁.type = .flood) (ht₂ : d₂.type = .flood)
    (hn : d₂.location.name = d₁.location.name)
    (hw₁ : d₁.readings.waterLevel = some w₁) (h8₁ : 8 ≤ w₁)
    (hw₂ : d₂.readings.waterLevel = some w₂) (h8₂ : 8 ≤ w₂)
    (hstore : ∀ a ∈ store,
      ¬(a.type = .flood ∧ a.status = .active ∧ a.location.name = d₁.location.name)) :
    ∃ alert,
      evaluateDataPoint store t d₁ = (some alert, store ++ [alert]) ∧
      evaluateDataPoint (store ++ [alert]) (t + 600000) d₂ = (none, store ++ [alert]) ∧
      ((store ++ [alert]).filter fun a =>
          decide (a.type = .flood ∧ a.status = .active ∧
            a.location.name = d₁.location.name)).length = 1 := by
  set alert := mkFloodAlert t d₁ w₁ (tierSeverity thresholds.waterLevel w₁) with halert
  have hfind₁ : store.find? (floodDedupMatch d₁.location.name t) = none := by
    rw [List.find?_eq_none]
    intro a ha
    simp only [floodDedupMatch, decide_eq_true_eq]
    intro hc
    exact hstore a ha ⟨hc.1, hc.2.1, hc.2.2.1⟩
  have e₁ : evaluateDataPoint store t d₁ = (some alert, store ++ [alert]) := by
    simp only [evaluateDataPoint, ht₁, evaluateFlood, hw₁, if_neg (floodGuardFalse h8₁),
      hfind₁, halert]
  have hfindstore₂ : store.find? (floodDedupMatch d₂.location.name (t + 600000)) = none := by
    rw [List.find?_eq_none]
    intro a ha
    simp only [floodDedupMatch, decide_eq_true_eq, hn]
    intro hc
    exact hstore a ha ⟨hc.1, hc.2.1, hc.2.2.1⟩
  have hty : alert.type = HazardType.flood := rfl
  have hst : alert.status = AlertStatus.active := rfl
  have hnm : alert.location.name = d₁.location.name := rfl
  have hct : alert.createdAt = t := rfl
  have htrue : floodDedupMatch d₂.location.name (t + 600000) alert = true := by
    simp only [floodDedupMatch, decide_eq_true_eq]
    refine ⟨hty, hst, ?_, ?_⟩
    · rw [hnm, ← hn]
    · rw [hct]; omega
  have hfind₂ : (store ++ [alert]).find?
      (floodDedupMatch d₂.location.name (t + 600000)) = some alert := by
    rw [List.find?_append, hfindstore₂]
    simp [List.find?_cons, htrue]
  have e₂ : evaluateDataPoint (store ++ [alert]) (t + 600000) d₂
      = (none, store ++ [alert]) := by
    simp only [evaluateDataPoint, ht₂, evaluateFlood, hw₂, if_neg (floodGuardFalse h8₂),
      hfind₂]
  refine ⟨alert, e₁, e₂, ?_⟩
  have hfilter : store.filter (fun a =>
      decide (a.type = .flood ∧ a.status = .active ∧
        a.location.name = d₁.location.name)) = [] := by
    rw [List.filter_eq_nil_iff]
    intro a ha
    simp only [decide_eq_true_eq]
    exact hstore a ha
  have palert : decide (alert.type = HazardType.flood ∧ alert.status = AlertStatus.active ∧
      alert.location.name = d₁.location.name) = true := by
    simp only [decide_eq_true_eq]
    exact ⟨hty, hst, hnm⟩
  rw [List.filter_append, hfilter, List.nil_append]
  simp [List.filter_cons, palert, hty, hst, hnm]

/-- Witness for C1 at concrete inputs: two Ganges-Basin readings with
water level 8.5 m, ten minutes apart, starting from an empty store. -/
theorem flood_dedup_idempotent_within_window_witness :
    ∃ alert : Alert,
      evaluateDataPoint [] 0 gangesFloodReading = (some alert, [] ++ [alert]) ∧
      evaluateDataPoint ([] ++ [alert]) (0 + 600000) gangesFloodReading
        = (none, [] ++ [alert]) ∧
      (List.filter (fun a : Alert =>
          decide (a.type = .flood ∧ a.status = .active ∧
            a.location.name = gangesFloodReading.location.name))
        ([] ++ [alert])).length = 1 :=
  flood_dedup_idempotent_within_window [] 0 gangesFloodReading gangesFloodReading
    (17/2) (17/2) rfl rfl rfl rfl (by norm_num) rfl (by norm_num)
    (by intro a ha; simp at ha)

/-- A connected client whose `subscribe` call registered only
`earthquake`. -/
def quakeOnlyClient : WsClient := ⟨"c1", ["earthquake"]⟩

/-- The flood alert the pipeline creates from the Ganges reading. -/
def demoFloodAlert : Alert :=
  mkFloodAlert 0 gangesFloodReading (17/2) (tierSeverity thresholds.waterLevel (17/2))

/-- C2 counterexample: a client subscribed only to `earthquake` still
receives the `new-alert` push for a flood alert, because
`_broadcastAlert` uses `io.emit`, which delivers to every connected
socket. -/
theorem broadcast_ignores_subscriptions_cex :
    demoFloodAlert.type = .flood ∧
    hazardName demoFloodAlert.type ∉ quakeOnlyClient.subscriptions ∧
    quakeOnlyClient.id ∈ broadcastAlertRecipients [quakeOnlyClient] demoFloodAlert := by
  refine ⟨rfl, ?_, ?_⟩
  · simp [hazardName, demoFloodAlert, mkFloodAlert, quakeOnlyClient]
  · simp [broadcastAlertRecipients, quakeOnlyClient]

/-- C2 (amended): the ingestion path's broadcast delivers the new-alert
push to *every* connected client, whatever its subscription set; the
category-filtered delivery exists only in `sendTypeAlert`, which the
ingestion path does not call. -/
theorem broadcast_delivers_to_all_clients
    (clients : List WsClient) (alert : Alert) (c : WsClient) (hc : c ∈ clients) :
    c.id ∈ broadcastAlertRecipients clients alert :=
  List.mem_map_of_mem WsClient.id hc

/-- Witness for the amended C2 at a concrete client list. -/
theorem broadcast_delivers_to_all_clients_witness :
    quakeOnlyClient.id ∈ broadcastAlertRecipients [quakeOnlyClient] demoFloodAlert :=
  broadcast_delivers_to_all_clients [quakeOnlyClient] demoFloodAlert quakeOnlyClient
    (by simp)

/-- A weather reading with both storm-level wind (50 km/h ≥ 40) and
heatwave-level temperature (43 °C ≥ 42). -/
def stormAndHeatReading : SensorData where
  source := "openweather"
  type := .weather
  location := ⟨"Delhi, India", 286/10, 772/10⟩
  readings := { windSpeed := some 50, temperature := some 43, humidity := some 25 }
  quality := "good"

/-- C3 counterexample: one weather reading with both high wind and high
temperature persists *two* alerts (a storm and a heatwave); the function
returns only the last one. -/
theorem weather_reading_two_alerts_cex :
    ((evaluateDataPoint [] 0 stormAndHeatReading).2.map Alert.type)
      = [.storm, .heatwave] ∧
    ((evaluateDataPoint [] 0 stormAndHeatReading).1.map Alert.type) = some .heatwave := by
  have c₁ : ¬((50:ℚ) = 0 ∨ (50:ℚ) < 40) := by norm_num
  have c₂ : ¬((150:ℚ) ≤ 50) := by norm_num
  have c₃ : ¬((100:ℚ) ≤ 50) := by norm_num
  have c₄ : ¬((70:ℚ) ≤ 50) := by norm_num
  have c₅ : ¬((43:ℚ) = 0 ∨ (43:ℚ) < 42) := by norm_num
  have c₆ : ¬((45:ℚ) ≤ 43) := by norm_num
  have c₇ : ¬((50:ℚ) < 40) := by norm_num
  have c₈ : ¬((43:ℚ) < 42) := by norm_num
  constructor <;>
  · simp [evaluateDataPoint, stormAndHeatReading, evaluateWeather, windStep, heatStep,
      thresholds, tierSeverity, mkStormAlert, mkHeatwaveAlert, List.find?_cons,
      stormDedupMatch, heatwaveDedupMatch, c₁, c₂, c₃, c₄, c₅, c₆, c₇, c₈]

/-- `windStep` grows the store by at most one alert. -/
theorem windStep_store_length (store : List Alert) (now : ℤ) (d : SensorData) :
    (windStep store now d).2.length ≤ store.length + 1 := by
  unfold windStep
  dsimp only
  repeat' split
  all_goals simp

/-- `heatStep` grows the store by at most one alert. -/
theorem heatStep_store_length (prev : Option Alert) (store : List Alert) (now : ℤ)
    (d : SensorData) :
    (heatStep prev store now d).2.length ≤ store.length + 1 := by
  unfold heatStep
  dsimp only
  repeat' split
  all_goals simp

/-- C3 (amended): one reading persists at most two alerts — the weather
evaluator may save one wind alert and one heatwave alert; the earthquake
and flood evaluators save at most one. -/
theorem evaluate_persists_at_most_two_alerts
    (store : List Alert) (now : ℤ) (d : SensorData) :
    (evaluateDataPoint store now d).2.length ≤ store.length + 2 := by
  unfold evaluateDataPoint
  split
  · unfold evaluateEarthquake
    dsimp only
    repeat' split
    all_goals simp
  · show (evaluateWeather store now d).2.length ≤ store.length + 2
    unfold evaluateWeather
    calc (heatStep (windStep store now d).1 (windStep store now d).2 now d).2.length
        ≤ (windStep store now d).2.length + 1 := heatStep_store_length ..
      _ ≤ store.length + 1 + 1 := by
          have := windStep_store_length store now d
          omega
      _ = store.length + 2 := by omega
  · unfold evaluateFlood
    dsimp only
    repeat' split
    all_goals simp
  · simp


/-- The reading with its `rainfall` key replaced. -/
def setRain (d : SensorData) (r : Option ℚ) : SensorData :=
  { d with readings := { d.readings with rainfall := r } }

/-- The classification outcome of an alert: its hazard type and severity. -/
def alertKind (a : Alert) : HazardType × Severity := (a.type, a.severity)

/-- A weather reading whose rainfall (160 mm) reaches the critical rainfall
tier while its wind speed (45 km/h) only reaches the low tier. -/
def lowWindHighRainReading : SensorData where
  source := "openweather"
  type := .weather
  location := ⟨"Mumbai, India", 19, 728/10⟩
  readings := { windSpeed := some 45, rainfall := some 160 }
  quality := "good"

/-- C4 counterexample: a reading with critical-tier rainfall and low-tier
wind speed yields an alert of severity `low` — the rainfall table never
enters the severity computation of `_evaluateWeather`. -/
theorem severity_ignores_rainfall_cex :
    lowWindHighRainReading.readings.rainfall = some 160 ∧
    thresholds.rainfall.critical ≤ (160:ℚ) ∧
    ((evaluateDataPoint [] 0 lowWindHighRainReading).1.map Alert.severity)
      = some .low := by
  refine ⟨rfl, by norm_num [thresholds], ?_⟩
  have c₁ : ¬((45:ℚ) = 0 ∨ (45:ℚ) < 40) := by norm_num
  have c₂ : ¬((150:ℚ) ≤ 45) := by norm_num
  have c₃ : ¬((100:ℚ) ≤ 45) := by norm_num
  have c₄ : ¬((70:ℚ) ≤ 45) := by norm_num
  have c₅ : ¬((45:ℚ) < 40) := by norm_num
  simp [evaluateDataPoint, lowWindHighRainReading, evaluateWeather, windStep, heatStep,
    thresholds, tierSeverity, mkStormAlert, c₁, c₂, c₃, c₄, c₅]

/-- `setRain` leaves the wind speed unchanged. -/
theorem setRain_windSpeed (d : SensorData) (r : Option ℚ) :
    (setRain d r).readings.windSpeed = d.readings.windSpeed := rfl

/-- `setRain` leaves the temperature unchanged. -/
theorem setRain_temperature (d : SensorData) (r : Option ℚ) :
    (setRain d r).readings.temperature = d.readings.temperature := rfl

/-- `setRain` leaves the location name unchanged. -/
theorem setRain_locationName (d : SensorData) (r : Option ℚ) :
    (setRain d r).location.name = d.location.name := rfl

/-- C4 (amended): the hazard types and severities produced by the weather
evaluator are independent of the reading's rainfall — rainfall is copied
into the alert's data snapshot and description but never consulted for
tier selection. -/
theorem weather_outcome_independent_of_rainfall
    (store : List Alert) (now : ℤ) (d : SensorData) (r₁ r₂ : Option ℚ) :
    ((evaluateWeather store now (setRain d r₁)).1.map alertKind
      = (evaluateWeather store now (setRain d r₂)).1.map alertKind) ∧
    ((evaluateWeather store now (setRain d r₁)).2.map alertKind
      = (evaluateWeather store now (setRain d r₂)).2.map alertKind) := by
  unfold evaluateWeather windStep heatStep
  simp only [setRain_windSpeed, setRain_temperature, setRain_locationName]
  cases hw : d.readings.windSpeed with
  | none =>
    cases ht : d.readings.temperature with
    | none => exact ⟨rfl, rfl⟩
    | some t =>
      by_cases hg : (t = 0 ∨ t < thresholds.temperature.heatwave)
      · simp [hg]
      · simp only [if_neg hg]
        cases hf : store.find? (heatwaveDedupMatch d.location.name now) with
        | some a => exact ⟨rfl, rfl⟩
        | none => simp [alertKind, mkHeatwaveAlert]
  | some w =>
    by_cases hg : (w = 0 ∨ w < thresholds.windSpeed.low)
    · simp only [if_pos hg]
      cases ht : d.readings.temperature with
      | none => exact ⟨rfl, rfl⟩
      | some t =>
        by_cases hg₂ : (t = 0 ∨ t < thresholds.temperature.heatwave)
        · simp [hg₂]
        · simp only [if_neg hg₂]
          cases hf : store.find? (heatwaveDedupMatch d.location.name now) with
          | some a => exact ⟨rfl, rfl⟩
          | none => simp [alertKind, mkHeatwaveAlert]
    · simp only [if_neg hg]
      cases hf : store.find? (stormDedupMatch
          (if thresholds.windSpeed.high ≤ w then HazardType.cyclone else .storm)
          d.location.name now) with
      | some a =>
        cases ht : d.readings.temperature with
        | none => exact ⟨rfl, rfl⟩
        | some t =>
          by_cases hg₂ : (t = 0 ∨ t < thresholds.temperature.heatwave)
          · simp [hg₂]
          · simp only [if_neg hg₂]
            cases hf₂ : store.find? (heatwaveDedupMatch d.location.name now) with
            | some b => exact ⟨rfl, rfl⟩
            | none => simp [alertKind, mkHeatwaveAlert]
      | none =>
        cases ht : d.readings.temperature with
        | none => simp [alertKind, mkStormAlert]
        | some t =>
          by_cases hg₂ : (t = 0 ∨ t < thresholds.temperature.heatwave)
          · simp [hg₂, alertKind, mkStormAlert]
          · simp only [if_neg hg₂, List.find?_append, List.find?_singleton]
            by_cases hq : heatwaveDedupMatch d.location.name now
                (mkStormAlert now (setRain d r₁) w
                  (if thresholds.windSpeed.high ≤ w then HazardType.cyclone else .storm)
                  (tierSeverity thresholds.windSpeed w)) = true
            · have hq₂ : heatwaveDedupMatch d.location.name now
                  (mkStormAlert now (setRain d r₂) w
                    (if thresholds.windSpeed.high ≤ w then HazardType.cyclone else .storm)
                    (tierSeverity thresholds.windSpeed w)) = true := hq
              simp only [hq, hq₂, if_true]
              cases hf₂ : store.find? (heatwaveDedupMatch d.location.name now) with
              | some b => simp [alertKind, mkStormAlert, Option.or]
              | none => simp [alertKind, mkStormAlert, Option.or]
            · rw [Bool.not_eq_true] at hq
              have hq₂ : heatwaveDedupMatch d.location.name now
                  (mkStormAlert now (setRain d r₂) w
                    (if thresholds.windSpeed.high ≤ w then HazardType.cyclone else .storm)
                    (tierSeverity thresholds.windSpeed w)) = false := hq
              simp only [hq, hq₂]
              cases hf₂ : store.find? (heatwaveDedupMatch d.location.name now) with
              | some b => simp [alertKind, mkStormAlert, Option.or]
              | none => simp [alertKind, mkStormAlert, mkHeatwaveAlert, Option.or]

/-- `heatStep` either leaves the store unchanged or appends one alert. -/
theorem heatStep_store_suffix (prev : Option Alert) (store : List Alert) (now : ℤ)
    (d : SensorData) :
    (heatStep prev store now d).2 = store ∨
    ∃ b, (heatStep prev store now d).2 = store ++ [b] := by
  unfold heatStep
  dsimp only
  repeat' split
  all_goals first
    | exact Or.inl rfl
    | exact Or.inr ⟨_, rfl⟩

/-- C5: for a weather reading with wind speed at or above the low boundary
(40 km/h), the first alert persisted into an empty store is a `cyclone`
exactly when the wind speed is at or above the high boundary (100 km/h)
and a `storm` otherwise, with severity given by the inclusive wind-speed
tier table (≥150 critical, ≥100 high, ≥70 medium, else low). -/
theorem wind_type_selected_by_high_boundary
    (now : ℤ) (d : SensorData) (w : ℚ)
    (hw : d.readings.windSpeed = some w) (hlow : (40:ℚ) ≤ w) :
    ((evaluateWeather [] now d).2.head?).map Alert.type
      = some (if (100:ℚ) ≤ w then .cyclone else .storm) ∧
    ((evaluateWeather [] now d).2.head?).map Alert.severity
      = some (if (150:ℚ) ≤ w then .critical
          else if (100:ℚ) ≤ w then .high
          else if (70:ℚ) ≤ w then .medium else .low) := by
  have hg : ¬(w = 0 ∨ w < thresholds.windSpeed.low) := by
    have h40 : thresholds.windSpeed.low = 40 := rfl
    push_neg
    rw [h40]
    refine ⟨?_, by linarith⟩
    intro h0
    rw [h0] at hlow
    norm_num at hlow
  have hwind : windStep [] now d =
      (some (mkStormAlert now d w
        (if thresholds.windSpeed.high ≤ w then HazardType.cyclone else .storm)
        (tierSeverity thresholds.windSpeed w)),
       [mkStormAlert now d w
        (if thresholds.windSpeed.high ≤ w then HazardType.cyclone else .storm)
        (tierSeverity thresholds.windSpeed w)]) := by
    unfold windStep
    simp only [hw, if_neg hg, List.find?_nil, List.nil_append]
  unfold evaluateWeather
  rw [hwind]
  rcases heatStep_store_suffix
      (some (mkStormAlert now d w
        (if thresholds.windSpeed.high ≤ w then HazardType.cyclone else .storm)
        (tierSeverity thresholds.windSpeed w)))
      [mkStormAlert now d w
        (if thresholds.windSpeed.high ≤ w then HazardType.cyclone else .storm)
        (tierSeverity thresholds.windSpeed w)] now d with h2 | ⟨b, h2⟩ <;>
    rw [h2] <;>
    simp [mkStormAlert, tierSeverity, thresholds]

/-- Witness for C5: the Bay of Bengal reading with wind speed 140 km/h
produces a `cyclone` alert of severity `high`. -/
theorem wind_type_selected_by_high_boundary_witness :
    ((evaluateWeather [] 0 bayOfBengalWindReading).2.head?).map Alert.type
      = some .cyclone ∧
    ((evaluateWeather [] 0 bayOfBengalWindReading).2.head?).map Alert.severity
      = some .high := by
  obtain ⟨h1, h2⟩ :=
    wind_type_selected_by_high_boundary 0 bayOfBengalWindReading 140 rfl (by norm_num)
  constructor
  · rw [h1]
    norm_num
  · rw [h2]
    norm_num

/-- A seismic reading of the given magnitude at the Nepal-India border. -/
def quakeReading (m : ℚ) : SensorData where
  source := "usgs"
  type := .earthquake
  location := ⟨"Nepal-India Border", 277/10, 853/10⟩
  readings := { magnitude := some m, depth := some 15 }
  quality := "good"

/-- A seismic reading whose `magnitude` key is absent. -/
def noMagnitudeReading : SensorData where
  source := "usgs"
  type := .earthquake
  location := ⟨"Unknown", 0, 0⟩
  readings := {}
  quality := "moderate"

/-- C6: earthquake tier boundaries are inclusive — magnitude exactly 3.0,
4.5, 6.0 and 7.0 classify into the low, medium, high and critical tiers
respectively — and a reading with no `magnitude` key yields no candidate
for any store. -/
theorem quake_boundaries_inclusive_and_missing_dropped :
    (∀ (store : List Alert) (now : ℤ) (d : SensorData), d.type = .earthquake →
        d.readings.magnitude = none → evaluateDataPoint store now d = (none, store)) ∧
    ((evaluateDataPoint [] 0 (quakeReading 3)).1.map Alert.severity = some .low) ∧
    ((evaluateDataPoint [] 0 (quakeReading (9/2))).1.map Alert.severity = some .medium) ∧
    ((evaluateDataPoint [] 0 (quakeReading 6)).1.map Alert.severity = some .high) ∧
    ((evaluateDataPoint [] 0 (quakeReading 7)).1.map Alert.severity = some .critical) := by
  refine ⟨?_, ?_, ?_, ?_, ?_⟩
  · intro store now d hty hmag
    simp only [evaluateDataPoint, hty, evaluateEarthquake, hmag]
  all_goals
    norm_num [evaluateDataPoint, quakeReading, evaluateEarthquake, thresholds,
      tierSeverity, mkQuakeAlert, List.find?_nil]

/-- Witness for C6: the missing-magnitude clause at a concrete reading. -/
theorem quake_boundaries_inclusive_and_missing_dropped_witness :
    evaluateDataPoint [] 0 noMagnitudeReading = (none, []) :=
  quake_boundaries_inclusive_and_missing_dropped.1 [] 0 noMagnitudeReading rfl rfl

/-- `evaluateEarthquake`'s low guard rejects nothing at or above the low tier. -/
theorem quakeGuardFalse {m : ℚ} (h3 : 3 ≤ m) :
    ¬(m = 0 ∨ m < thresholds.earthquake.low) := by
  have hlow : thresholds.earthquake.low = 3 := rfl
  push_neg
  rw [hlow]
  refine ⟨?_, by linarith⟩
  intro h0
  rw [h0] at h3
  norm_num at h3

/-- An active flood alert carrying the Ganges Basin name but coordinates
far outside the basin (latitude 60). -/
def farFloodAlert : Alert where
  id := "far"
  title := "Flood Warning - Ganges Basin, India"
  type := .flood
  severity := .high
  status := .active
  description := "Water level at 8.5m"
  location := ⟨"Ganges Basin, India", 60, 0, 75⟩
  data := { waterLevel := some (17/2) }
  source := "sensor"
  recommendations := []
  createdAt := 0
  expiresAt := 172800000

/-- C7 counterexample: a flood candidate is suppressed by an existing
active flood alert with the same location *name* even though the existing
alert's coordinates lie far outside the ±0.5° box around the candidate —
flood deduplication never looks at coordinates. -/
theorem flood_dedup_by_name_not_box_cex :
    farFloodAlert.location.name = gangesFloodReading.location.name ∧
    gangesFloodReading.location.latitude + 1/2 < farFloodAlert.location.latitude ∧
    evaluateDataPoint [farFloodAlert] 600000 gangesFloodReading
      = (none, [farFloodAlert]) := by
  refine ⟨rfl, by norm_num [gangesFloodReading, farFloodAlert], ?_⟩
  have hty : gangesFloodReading.type = .flood := rfl
  have hwl : gangesFloodReading.readings.waterLevel = some (17/2) := rfl
  have hp : floodDedupMatch gangesFloodReading.location.name 600000 farFloodAlert
      = true := by decide
  have hfind : List.find? (floodDedupMatch gangesFloodReading.location.name 600000)
      [farFloodAlert] = some farFloodAlert := by
    rw [List.find?_singleton, if_pos hp]
  simp only [evaluateDataPoint, hty, evaluateFlood, hwl, hfind]
  split <;> rfl

/-- C7 (amended): the ±0.5° bounding-box check applies only to earthquake
deduplication; flood deduplication (like the storm and heatwave branches)
matches on the exact location name, wholly ignoring coordinates. An
existing same-name active flood alert suppresses the candidate wherever
its coordinates lie, while an earthquake candidate is *not* suppressed by
an active earthquake alert outside the box. -/
theorem dedup_spatial_criteria_per_type :
    (∀ (now : ℤ) (d : SensorData) (a : Alert) (w : ℚ),
      d.type = .flood → d.readings.waterLevel = some w → 8 ≤ w →
      a.type = .flood → a.status = .active → a.location.name = d.location.name →
      now - 10800000 ≤ a.createdAt →
      evaluateDataPoint [a] now d = (none, [a])) ∧
    (∀ (now : ℤ) (d : SensorData) (a : Alert) (m : ℚ),
      d.type = .earthquake → d.readings.magnitude = some m → 3 ≤ m →
      d.location.latitude + 1/2 < a.location.latitude →
      ∃ b, evaluateDataPoint [a] now d = (some b, [a, b])) := by
  constructor
  · intro now d a w hty hwl h8 haty hast hanm hat
    have hp : floodDedupMatch d.location.name now a = true := by
      simp only [floodDedupMatch, decide_eq_true_eq]
      exact ⟨haty, hast, hanm, hat⟩
    have hfind : List.find? (floodDedupMatch d.location.name now) [a] = some a := by
      rw [List.find?_singleton, if_pos hp]
    simp only [evaluateDataPoint, hty, evaluateFlood, hwl,
      if_neg (floodGuardFalse h8), hfind]
  · intro now d a m hty hmag h3 hlat
    have hp : quakeDedupMatch d.location.latitude d.location.longitude now a
        = false := by
      simp only [quakeDedupMatch, decide_eq_false_iff_not]
      intro hc
      have := hc.2.2.2.1
      linarith
    have hfind : List.find?
        (quakeDedupMatch d.location.latitude d.location.longitude now) [a] = none := by
      rw [List.find?_singleton, if_neg]
      simp [hp]
    refine ⟨mkQuakeAlert now d m (tierSeverity thresholds.earthquake m), ?_⟩
    simp only [evaluateDataPoint, hty, evaluateEarthquake, hmag,
      if_neg (quakeGuardFalse h3), hfind]
    rfl

/-- An active earthquake alert far north of the Nepal-India border. -/
def farQuakeAlert : Alert where
  id := "farq"
  title := "Earthquake M6.0 - Elsewhere"
  type := .earthquake
  severity := .high
  status := .active
  description := "far away"
  location := ⟨"Nepal-India Border", 60, 853/10, 120⟩
  data := { magnitude := some 6 }
  source := "usgs"
  recommendations := []
  createdAt := 590000
  expiresAt := 86400000

/-- Witness for the amended C7 at concrete alerts and readings. -/
theorem dedup_spatial_criteria_per_type_witness :
    evaluateDataPoint [farFloodAlert] 600000 gangesFloodReading
      = (none, [farFloodAlert]) ∧
    ∃ b, evaluateDataPoint [farQuakeAlert] 600000 (quakeReading 6)
      = (some b, [farQuakeAlert, b]) := by
  constructor
  · exact dedup_spatial_criteria_per_type.1 600000 gangesFloodReading farFloodAlert
      (17/2) rfl rfl (by norm_num) rfl rfl rfl (by norm_num [farFloodAlert])
  · exact dedup_spatial_criteria_per_type.2 600000 (quakeReading 6) farQuakeAlert 6
      rfl rfl (by norm_num) (by norm_num [quakeReading, farQuakeAlert])

/-- An already-resolved earthquake alert. -/
def resolvedQuakeAlert : Alert where
  id := "rq"
  title := "Earthquake M6.2 - Nepal-India Border"
  type := .earthquake
  severity := .high
  status := .resolved
  description := "resolved"
  location := ⟨"Nepal-India Border", 277/10, 853/10, 120⟩
  data := { magnitude := some (31/5), depth := some 15 }
  source := "usgs"
  recommendations := []
  createdAt := 0
  expiresAt := 86400000
  resolvedAt := some 3600000

/-- C8 counterexample: the PATCH handler moves a `resolved` alert back to
`active` — the schema only validates enum membership, so the transition is
not monotonic. -/
theorem patch_reactivates_resolved_alert_cex :
    resolvedQuakeAlert.status = .resolved ∧
    (applyPatch resolvedQuakeAlert { status := some .active } 7200000).status
      = .active :=
  ⟨rfl, rfl⟩

/-- C8 (amended): the PATCH status update can set any of the four enum
statuses on any alert, in either direction; an omitted status leaves the
stored status unchanged. No forward-only restriction exists. -/
theorem patch_sets_any_status (a : Alert) (s : AlertStatus) (now : ℤ) :
    (applyPatch a { status := some s } now).status = s ∧
    (applyPatch a {} now).status = a.status :=
  ⟨rfl, rfl⟩

/-- C9 counterexample: with an API key configured and every OpenWeatherMap
request failing, `collectWeatherData` returns an *empty* batch — the
per-location `try/catch` skips failed locations and no synthetic fallback
runs on this path. -/
theorem weather_collect_empty_on_api_failure_cex :
    keyConfigured "k" = true ∧
    collectWeatherData "k" (fun _ => none) (fun _ => 0) = [] := by
  have hk : keyConfigured "k" = true := by decide
  refine ⟨hk, ?_⟩
  simp [collectWeatherData, hk, monitoredLocations]

/-- C9 (amended): when the API key is missing, the weather batch is fully
simulated, one reading per monitored location, hence non-empty; and a
failed USGS request yields a simulated earthquake batch of at least two
events (for `Math.random()` draws in `[0,1)`). With a key configured, the
weather batch can be empty (see the counterexample). -/
theorem collect_fallback_behavior :
    (∀ (key : String) (fetch : MonitoredLocation → Option WeatherApiResponse)
        (rand : ℕ → ℚ), keyConfigured key = false →
      (collectWeatherData key fetch rand).length = monitoredLocations.length ∧
      0 < (collectWeatherData key fetch rand).length) ∧
    (∀ rand : ℕ → ℚ, 0 ≤ rand 0 → rand 0 < 1 →
      2 ≤ (collectEarthquakeData none rand).length) := by
  constructor
  · intro key fetch rand hk
    have h : collectWeatherData key fetch rand = generateSimulatedWeatherData rand := by
      simp [collectWeatherData, hk]
    rw [h]
    constructor
    · simp [generateSimulatedWeatherData]
    · simp [generateSimulatedWeatherData, monitoredLocations]
  · intro rand h0 h1
    have hfloor : (2:ℤ) ≤ ⌊2 + rand 0 * 5⌋ := by
      rw [Int.le_floor]
      push_cast
      nlinarith
    simp only [collectEarthquakeData, generateSimulatedEarthquakeData,
      List.length_map, List.length_range]
    omega

/-- Witness for the amended C9: empty key and all-zero random draws. -/
theorem collect_fallback_behavior_witness :
    ((collectWeatherData "" (fun _ => none) (fun _ => 0)).length
        = monitoredLocations.length ∧
      0 < (collectWeatherData "" (fun _ => none) (fun _ => 0)).length) ∧
    2 ≤ (collectEarthquakeData none (fun _ => 0)).length :=
  ⟨collect_fallback_behavior.1 "" (fun _ => none) (fun _ => 0) (by decide),
   collect_fallback_behavior.2 (fun _ => 0) (by norm_num) (by norm_num)⟩

/-- C10: every payload pushed on the `new-alert` channel by a run of
`evaluateAlerts` carries exactly the keys id, title, type, severity,
description, location and createdAt — never recommendations, data,
status, source or expiresAt. -/
theorem broadcast_payload_projection
    (store : List Alert) (now : ℤ) (ds : List SensorData)
    (p : List (String × PayloadValue))
    (hp : p ∈ evaluateAlertsBroadcasts store now ds) :
    p.map Prod.fst
      = ["id", "title", "type", "severity", "description", "location", "createdAt"] ∧
    "recommendations" ∉ p.map Prod.fst ∧ "data" ∉ p.map Prod.fst ∧
    "status" ∉ p.map Prod.fst ∧ "source" ∉ p.map Prod.fst ∧
    "expiresAt" ∉ p.map Prod.fst := by
  obtain ⟨a, -, rfl⟩ := List.mem_map.mp hp
  refine ⟨rfl, ?_, ?_, ?_, ?_, ?_⟩ <;> simp [newAlertPayload]

/-- Witness for C10: the payload broadcast for the Ganges flood alert. -/
theorem broadcast_payload_projection_witness :
    (newAlertPayload demoFloodAlert).map Prod.fst
      = ["id", "title", "type", "severity", "description", "location", "createdAt"] ∧
    "recommendations" ∉ (newAlertPayload demoFloodAlert).map Prod.fst ∧
    "data" ∉ (newAlertPayload demoFloodAlert).map Prod.fst ∧
    "status" ∉ (newAlertPayload demoFloodAlert).map Prod.fst ∧
    "source" ∉ (newAlertPayload demoFloodAlert).map Prod.fst ∧
    "expiresAt" ∉ (newAlertPayload demoFloodAlert).map Prod.fst := by
  have hty : gangesFloodReading.type = .flood := rfl
  have hwl : gangesFloodReading.readings.waterLevel = some (17/2) := rfl
  have e : evaluateDataPoint [] 0 gangesFloodReading
      = (some demoFloodAlert, [demoFloodAlert]) := by
    simp only [evaluateDataPoint, hty, evaluateFlood, hwl,
      if_neg (floodGuardFalse (show (8:ℚ) ≤ 17/2 by norm_num)), List.find?_nil,
      demoFloodAlert, List.nil_append]
  have hmem : newAlertPayload demoFloodAlert
      ∈ evaluateAlertsBroadcasts [] 0 [gangesFloodReading] := by
    simp [evaluateAlertsBroadcasts, evaluateAlerts, e]
  exact broadcast_payload_projection [] 0 [gangesFloodReading]
    (newAlertPayload demoFloodAlert) hmem
